import Mathlib

/-!
Shallow embedding of the detour-rs core (x86/x86-64 inline hooking library)
used to settle the specification claims. Each definition mirrors one item of
the Rust source; the source file and symbol are named in its doc comment.
Machine integers are modelled as `Nat`/`Int` with explicit `% 2^w` where the
source wraps; Rust panics and `expect` failures are modelled as `none`/`Option`.
-/

namespace DetourRs

/-! ### Byte-level helpers (little-endian encodings used by `mem::transmute`) -/

/-- Little-endian byte list of a 32-bit value (as produced by transmuting a
`u32` on x86). -/
def le32 (v : Nat) : List Nat :=
  [v % 256, v / 2 ^ 8 % 256, v / 2 ^ 16 % 256, v / 2 ^ 24 % 256]

/-- Little-endian byte list of a 64-bit value (transmuted `usize` on x86-64). -/
def le64 (v : Nat) : List Nat :=
  le32 (v % 2 ^ 32) ++ le32 (v / 2 ^ 32 % 2 ^ 32)

/-- Error enumeration from `src/error.rs` (`enum Error`). `regionFailure`
abstracts over the inner `region::Error` payload. -/
inductive Error
  | sameAddress
  | invalidCode
  | noPatchArea
  | notExecutable
  | notInitialized
  | alreadyInitialized
  | outOfMemory
  | unsupportedInstruction
  | regionFailure
  deriving DecidableEq, Repr

/-- Constant `DETOUR_RANGE` from `src/arch/x86/meta.rs` (2 GiB). -/
def DETOUR_RANGE : Nat := 0x80000000

/-- Function `is_within_range` from `src/arch/mod.rs`: the displacement lies in
`-DETOUR_RANGE..DETOUR_RANGE`. -/
def is_within_range (displacement : Int) : Bool :=
  decide (-(DETOUR_RANGE : Int) ≤ displacement ∧ displacement < (DETOUR_RANGE : Int))

/-! ### PIC thunks and the code emitter (`src/pic/thunk.rs`, `src/pic/emitter.rs`) -/

/-- A thunk in the sense of `pic::Thunkable`: a declared size and a generator
from the placement base address to bytes. A generator returning `none` models
a Rust panic (e.g. a failed `assert!`) during generation. -/
structure PThunk where
  size : Nat
  gen : Nat → Option (List Nat)

/-- The `Thunkable` impl for `Vec<u8>`: fixed bytes, independent of the base. -/
def verbatim (bytes : List Nat) : PThunk :=
  ⟨bytes.length, fun _ => some bytes⟩

/-- Method `CodeEmitter::emit` from `src/pic/emitter.rs`: walk the thunks in
order, threading a running base address, asserting that each generated chunk
has the thunk's declared length (`assert_eq!(code.len(), thunk.len())`, modelled
as `none` on failure), and concatenate the results. -/
def emit : List PThunk → Nat → Option (List Nat)
  | [], _ => some []
  | t :: ts, base =>
    (t.gen base).bind fun code =>
      if code.length = t.size then
        (emit ts (base + t.size)).map fun rest => code ++ rest
      else none

/-- Method `CodeEmitter::len` from `src/pic/emitter.rs`: fold of the thunk
sizes. -/
def emitter_len (ts : List PThunk) : Nat :=
  ts.foldl (fun sum t => sum + t.size) 0

/-- The contract demanded of every thunk by the spec's data model: `generate`
returns exactly `len()` bytes for every base address. -/
def SatisfiesContract (t : PThunk) : Prop :=
  ∀ base, ∃ out, t.gen base = some out ∧ out.length = t.size

/-! ### Thunk encoders (`src/arch/x86/thunk/x86.rs`, `src/arch/x86/thunk/x64.rs`) -/

/-- Function `calculate_displacement` from `src/arch/x86/thunk/x86.rs`:
`destination - (source + instruction_size)` (on x86-64 additionally asserted to
be `is_within_range`; the assertion is applied at the call sites below). -/
def calculate_displacement (source destination instruction_size : Nat) : Int :=
  (destination : Int) - ((source : Int) + (instruction_size : Int))

/-- Function `jmp_rel32` from `src/arch/x86/thunk/x86.rs`: five bytes
`E9 disp32` where `disp32 = destination - (source + 5)`. The `cfg(x86_64)`
range assertion is modelled as generation failure. -/
def jmp_rel32 (destination : Nat) : PThunk :=
  ⟨5, fun source =>
    let d := calculate_displacement source destination 5
    if is_within_range d then some (0xE9 :: le32 (d.emod (2 ^ 32)).toNat) else none⟩

/-- Function `call_rel32` from `src/arch/x86/thunk/x86.rs`: `E8 disp32`. -/
def call_rel32 (destination : Nat) : PThunk :=
  ⟨5, fun source =>
    let d := calculate_displacement source destination 5
    if is_within_range d then some (0xE8 :: le32 (d.emod (2 ^ 32)).toNat) else none⟩

/-- Function `jcc_rel32` from `src/arch/x86/thunk/x86.rs`: six bytes
`0F (80|condition) disp32`. -/
def jcc_rel32 (destination condition : Nat) : PThunk :=
  ⟨6, fun source =>
    let d := calculate_displacement source destination 6
    if is_within_range d then
      some (0x0F :: (0x80 ||| condition) :: le32 (d.emod (2 ^ 32)).toNat)
    else none⟩

/-- Function `jmp_rel8` from `src/arch/x86/thunk/x86.rs`: two bytes `EB imm8`
with `imm8 = displacement - 2` (wrapping `i8` arithmetic, independent of the
base address). -/
def jmp_rel8 (displacement : Int) : PThunk :=
  ⟨2, fun _ => some [0xEB, ((displacement - 2).emod 256).toNat]⟩

/-- Function `jmp_abs` from `src/arch/x86/thunk/x64.rs`: 14 fixed bytes
`FF 25 00000000` followed by the destination as a `u64`. -/
def jmp_abs (destination : Nat) : PThunk :=
  verbatim ([0xFF, 0x25, 0x00, 0x00, 0x00, 0x00] ++ le64 destination)

/-- Function `call_abs` from `src/arch/x86/thunk/x64.rs`: 16 fixed bytes
`FF 15 00000002 EB 08` followed by the destination as a `u64`. -/
def call_abs (destination : Nat) : PThunk :=
  verbatim ([0xFF, 0x15, 0x02, 0x00, 0x00, 0x00, 0xEB, 0x08] ++ le64 destination)

/-- Function `jcc_abs` from `src/arch/x86/thunk/x64.rs`: 16 fixed bytes, a
short inverted-condition jump over `FF 25 00000000` plus the destination. -/
def jcc_abs (destination condition : Nat) : PThunk :=
  verbatim ([0x71 ^^^ condition, 0x0E, 0xFF, 0x25, 0x00, 0x00, 0x00, 0x00] ++ le64 destination)

/-! ### Inline patcher (`src/arch/x86/patcher.rs`) -/

/-- Reads `n` bytes of process memory starting at `addr`; memory is modelled as
a total byte map. -/
def read_bytes (mem : Nat → Nat) (addr n : Nat) : List Nat :=
  (List.range n).map fun i => mem (addr + i)

/-- Function `Patcher::is_code_padding`: every byte is one of
`0x00`, `0x90`, `0xCC`. -/
def is_code_padding (buffer : List Nat) : Bool :=
  buffer.all fun code => code == 0x00 || code == 0x90 || code == 0xCC

/-- Function `Patcher::is_patchable`: the prolog alone holds the patch, or the
bytes between the prolog end and the patch end are all code padding. -/
def is_patchable (mem : Nat → Nat) (target prolog_size patch_size : Nat) : Bool :=
  if patch_size ≤ prolog_size then true
  else is_code_padding (read_bytes mem (target + prolog_size) (patch_size - prolog_size))

/-- Function `Patcher::get_patch_area`: returns the `(start, length)` of the
patch area. `exec` models `util::is_executable_address` (assumed to not fail).
The long-jump size is 5 (`JumpRel`), the short-jump size is 2 (`JumpShort`). -/
def get_patch_area (mem : Nat → Nat) (exec : Nat → Bool) (target prolog_size : Nat) :
    Except Error (Nat × Nat) :=
  if !is_patchable mem target prolog_size 5 then
    if is_patchable mem target prolog_size 2 then
      let hot_patch := target - 5
      if !is_code_padding (read_bytes mem hot_patch 5) || !exec hot_patch then
        Except.error Error.noPatchArea
      else
        Except.ok (hot_patch, 5 + 2)
    else
      Except.error Error.noPatchArea
  else
    Except.ok (target, 5)

/-- Function `Patcher::hook_template`: a `jmp_rel32` to the detour, followed by
`jmp_rel8 (-5)` exactly when the patch area is longer than the 5-byte long
jump (the hot-patch layout). -/
def hook_template (detour patch_area_len : Nat) : List PThunk :=
  jmp_rel32 detour :: (if 5 < patch_area_len then [jmp_rel8 (-(5 : Int))] else [])

/-! ### Free-region search (`src/alloc/search.rs`) -/

/-- Outcome of `region::query` at an address: an occupied region with bounds,
the `region::Error::Free` error (address not backed), or any other error. -/
inductive QueryResult
  | occupied (lower upper : Nat)
  | free
  | fail
  deriving DecidableEq, Repr

/-- Struct `RegionIter` from `src/alloc/search.rs`: the bounding range, the
search direction (`before = true` means `SearchDirection::Before`) and the
cursor `current`. -/
structure RegionIter where
  range_lo : Nat
  range_hi : Nat
  before : Bool
  current : Nat
  deriving DecidableEq, Repr

/-- One yielded item of the iterator: a free-address candidate or a region
failure (any `region::query` error other than `Free`). -/
inductive ProbeItem
  | ok (addr : Nat)
  | regionFailure
  deriving DecidableEq, Repr

/-- Method `contains_` of `util::RangeContains` for `Range<usize>`:
`start <= item && end > item`. -/
def contains_ (lo hi x : Nat) : Bool :=
  decide (lo ≤ x) && decide (x < hi)

/-- Method `<RegionIter as Iterator>::next` from `src/alloc/search.rs`, with
explicit fuel for the internal `while` loop (`none` = fuel exhausted). The
returned pair is the iterator's yield (`none` = iteration over) and the
post-call iterator state. In the `Before` direction the free-candidate branch
evaluates `self.current.saturating_sub(page_size)` but discards the result,
exactly as the source does, so the cursor is left unchanged there. -/
def region_iter_next (query : Nat → QueryResult) (page_size : Nat) :
    Nat → RegionIter → Option (Option ProbeItem × RegionIter)
  | 0, _ => none
  | fuel + 1, it =>
    if 0 < it.current && contains_ it.range_lo it.range_hi it.current then
      match query it.current with
      | QueryResult.occupied lower upper =>
        region_iter_next query page_size fuel
          { it with current := if it.before then lower - page_size else upper }
      | QueryResult.free =>
        some (some (ProbeItem.ok it.current),
          if it.before then it else { it with current := it.current + page_size })
      | QueryResult.fail =>
        some (some ProbeItem.regionFailure,
          if it.before then it else { it with current := it.current + page_size })
    else
      some (none, it)

/-- Function `search::after`: an iterator in the `After` direction starting at
`origin`, bounded by the given range. -/
def search_after (origin lo hi : Nat) : RegionIter :=
  ⟨lo, hi, false, origin⟩

/-- Function `search::before`: an iterator in the `Before` direction starting
at `origin`, bounded by the given range. -/
def search_before (origin lo hi : Nat) : RegionIter :=
  ⟨lo, hi, true, origin⟩

/-! ### Proximity allocator (`src/alloc/proximity.rs`)

The backing `slice_pool::sync::SlicePool` is an external crate; it is modelled
here as a pool with a base address, a byte length (`SlicePool::len`), a
first-fit free list of `(offset, length)` chunks, and a live-allocation count.
The in-repo code consults only `as_ptr`, `len` and `alloc`. -/

/-- Model of `slice_pool::sync::SlicePool<u8>`. -/
structure Pool where
  base : Nat
  size : Nat
  freeList : List (Nat × Nat)
  live : Nat
  deriving DecidableEq, Repr

/-- First-fit carve of `n` bytes out of a free list, returning the chosen
offset and the remaining free list. -/
def pool_alloc_free : List (Nat × Nat) → Nat → Option (Nat × List (Nat × Nat))
  | [], _ => none
  | (off, len) :: rest, n =>
    if n ≤ len then
      some (off, if len - n = 0 then rest else (off + n, len - n) :: rest)
    else
      (pool_alloc_free rest n).map fun r => (r.1, (off, len) :: r.2)

/-- Model of `SlicePool::alloc`: carve `n` bytes, returning the absolute base
address of the new slice and the updated pool. -/
def pool_alloc (p : Pool) (n : Nat) : Option (Nat × Pool) :=
  (pool_alloc_free p.freeList n).map fun r =>
    (p.base + r.1, { p with freeList := r.2, live := p.live + 1 })

/-- A successful allocation as seen by the caller: the slice's base address and
its requested size. -/
structure AllocSlice where
  base : Nat
  size : Nat
  deriving DecidableEq, Repr

/-- Predicate `is_pool_in_range` from `ProximityAllocator::allocate_memory`:
both the pool's first and last byte lie in the query range. -/
def is_pool_in_range (lo hi : Nat) (p : Pool) : Bool :=
  contains_ lo hi p.base && contains_ lo hi (p.base + p.size - 1)

/-- Method `ProximityAllocator::allocate_memory`: try each existing pool in
order, taking the first that lies in the range and can carve `size` bytes. -/
def allocate_memory (lo hi size : Nat) :
    List Pool → Except Error (AllocSlice × List Pool)
  | [] => Except.error Error.outOfMemory
  | p :: ps =>
    if is_pool_in_range lo hi p then
      match pool_alloc p size with
      | some r => Except.ok (⟨r.1, size⟩, r.2 :: ps)
      | none => (allocate_memory lo hi size ps).map fun r => (r.1, p :: r.2)
    else
      (allocate_memory lo hi size ps).map fun r => (r.1, p :: r.2)

/-- Function `ProximityAllocator::allocate_fixed_pool`: fixed-address mapping
of `size` RWX bytes at `address`; `mmap_ok` models the OS accepting or
rejecting the hint. A fresh pool is wholly free and has no live slices. -/
def allocate_fixed_pool (mmap_ok : Nat → Nat → Bool) (address size : Nat) : Option Pool :=
  if mmap_ok address size then some ⟨address, size, [(0, size)], 0⟩ else none

/-- The `after.chain(before).filter_map(..).next()` pipeline inside
`ProximityAllocator::allocate_pool`: drain the iterators in order; a free
candidate where the fixed mapping succeeds yields the new pool, a region
failure aborts, exhaustion of both iterators is `OutOfMemory`. `none` = fuel
exhausted. -/
def pool_search (query : Nat → QueryResult) (page_size : Nat)
    (mmap_ok : Nat → Nat → Bool) (size : Nat) :
    Nat → RegionIter → List RegionIter → Option (Except Error Pool)
  | 0, _, _ => none
  | fuel + 1, it, rest =>
    match region_iter_next query page_size (fuel + 1) it with
    | none => none
    | some (none, _) =>
      match rest with
      | [] => some (Except.error Error.outOfMemory)
      | it2 :: rest2 => pool_search query page_size mmap_ok size fuel it2 rest2
    | some (some (ProbeItem.ok addr), it') =>
      match allocate_fixed_pool mmap_ok addr size with
      | some pool => some (Except.ok pool)
      | none => pool_search query page_size mmap_ok size fuel it' rest
    | some (some ProbeItem.regionFailure, _) =>
      some (Except.error Error.regionFailure)

/-- Method `ProximityAllocator::allocate`: the query range is
`origin.saturating_sub(max_distance)..origin.saturating_add(max_distance)`;
first try the existing pools, otherwise probe for a new pool (after-direction
candidates first, then before-direction), carve the slice from it and push it.
`none` = probe fuel exhausted or an unreachable `unwrap` failed. -/
def allocate (query : Nat → QueryResult) (page_size : Nat)
    (mmap_ok : Nat → Nat → Bool) (max_distance : Nat) (pools : List Pool)
    (origin size fuel : Nat) : Option (Except Error (AllocSlice × List Pool)) :=
  let lo := origin - max_distance
  let hi := origin + max_distance
  match allocate_memory lo hi size pools with
  | Except.ok r => some (Except.ok r)
  | Except.error _ =>
    match pool_search query page_size mmap_ok size fuel
        (search_after origin lo hi) [search_before origin lo hi] with
    | none => none
    | some (Except.error e) => some (Except.error e)
    | some (Except.ok pool) =>
      match pool_alloc pool size with
      | some r => some (Except.ok (⟨r.1, size⟩, pools ++ [r.2]))
      | none => none

/-- Method `ProximityAllocator::release`: find the pool whose byte range
contains the slice pointer (`expect` panic, modelled as `none`, when absent)
and remove it exactly when `SlicePool::len() == 1`, i.e. when the pool is one
byte long. -/
def release (pools : List Pool) (value_ptr : Nat) : Option (List Pool) :=
  match pools.findIdx? (fun p => contains_ p.base (p.base + p.size) value_ptr) with
  | none => none
  | some index =>
    if (pools.getD index ⟨0, 0, [], 0⟩).size = 1 then
      some (pools.eraseIdx index)
    else
      some pools

/-! ### Trampoline builder (`src/arch/x86/trampoline/mod.rs`)

The underlying disassembler (`trampoline/disasm.rs`, wrapping udis86) is
external; an instruction is modelled by the record the builder consumes:
its bytes and the classification accessors of `disasm::Instruction`. The
instruction's address is supplied by the builder (`target + total bytes`),
as in `Builder::next_instruction`. The x86-64 thunk selection
(`thunk::jmp = jmp_abs`, `thunk::call = call_abs`, `thunk::jcc = jcc_abs`)
is used, matching `src/arch/x86/thunk/mod.rs` on x86-64. -/

/-- Model of `disasm::Instruction` as consumed by the builder. -/
structure Instr where
  bytes : List Nat
  ripDisp : Option Int
  branchDisp : Option Int
  isCall : Bool
  isLoop : Bool
  isUncondJump : Bool
  isRet : Bool
  deriving DecidableEq, Repr

/-- Method `Instruction::len`: the instruction's byte count. -/
def Instr.len (i : Instr) : Nat := i.bytes.length

/-- The builder's mutable state (`Builder` fields `branch_address`,
`total_bytes_disassembled`, `finished`). -/
structure BuildState where
  branchAddress : Option Nat
  totalBytes : Nat
  finished : Bool
  deriving DecidableEq, Repr

/-- Method `Builder::is_instruction_in_branch`: the instruction's address is
below the recorded intra-prolog branch destination. -/
def is_instruction_in_branch (st : BuildState) (addr : Nat) : Bool :=
  match st.branchAddress with
  | none => false
  | some offset => decide (addr < offset)

/-- Method `Builder::handle_rip_relative_instruction`: sets `finished` to
whether the instruction is an unconditional jump; copies the bytes verbatim
when the displacement lies in `-(total bytes disassembled)..0`; otherwise
produces an `UnsafeThunk` of the instruction's length that rewrites the final
four bytes to `instruction address - base + displacement` as a wrapped `u32`,
after asserting `is_within_range` (assert failure = `none`). -/
def handle_rip_relative_instruction (totalBytes addr : Nat) (i : Instr)
    (displacement : Int) : Bool × PThunk :=
  let finished := i.isUncondJump
  if -(totalBytes : Int) ≤ displacement ∧ displacement < 0 then
    (finished, verbatim i.bytes)
  else
    (finished,
      ⟨i.len, fun offset =>
        let adjusted := (addr : Int) - (offset : Int) + displacement
        if is_within_range adjusted then
          some (i.bytes.take (i.len - 4) ++ le32 (adjusted.emod (2 ^ 32)).toNat)
        else none⟩)

/-- The absolute destination of a relative branch,
`instruction.next_instruction_address().wrapping_add(displacement)` inside
`Builder::handle_relative_branch` (wrapping `usize` arithmetic). -/
def branch_destination (addr len : Nat) (displacement : Int) : Nat :=
  (((addr : Int) + (len : Int) + displacement).emod (2 ^ 64)).toNat

/-- Method `Builder::handle_relative_branch`: computes the absolute branch
destination with wrapping `usize` addition, then dispatches on the
classification exactly as the source does. Returns the updated
`(branch_address, finished)` pair and the emitted thunk. -/
def handle_relative_branch (target margin : Nat) (st : BuildState) (addr : Nat)
    (i : Instr) (displacement : Int) :
    Except Error (Option Nat × Bool × PThunk) :=
  let destination_address_abs := branch_destination addr i.len displacement
  if i.isCall then
    Except.ok (st.branchAddress, st.finished, call_abs destination_address_abs)
  else if target ≤ destination_address_abs ∧ destination_address_abs < target + margin then
    Except.ok (some destination_address_abs, st.finished, verbatim i.bytes)
  else if i.isLoop then
    Except.error Error.unsupportedInstruction
  else if i.isUncondJump then
    Except.ok (st.branchAddress, !is_instruction_in_branch st addr,
      jmp_abs destination_address_abs)
  else
    let primary_opcode := (i.bytes.find? fun op => op ≠ 0x0F).getD 0
    let condition := primary_opcode % 16
    Except.ok (st.branchAddress, st.finished, jcc_abs destination_address_abs condition)

/-- Method `Builder::process_instruction`: dispatch on RIP-relative operand,
relative branch, return, or verbatim copy. `st.totalBytes` already includes
the current instruction, as in the source (`next_instruction` adds the length
before `process_instruction` runs). -/
def process_instruction (target margin : Nat) (st : BuildState) (addr : Nat)
    (i : Instr) : Except Error (BuildState × PThunk) :=
  match i.ripDisp with
  | some displacement =>
    let r := handle_rip_relative_instruction st.totalBytes addr i displacement
    Except.ok ({ st with finished := r.1 }, r.2)
  | none =>
    match i.branchDisp with
    | some displacement =>
      (handle_relative_branch target margin st addr i displacement).map fun r =>
        ({ st with branchAddress := r.1, finished := r.2.1 }, r.2.2)
    | none =>
      if i.isRet then
        Except.ok ({ st with finished := !is_instruction_in_branch st addr },
          verbatim i.bytes)
      else
        Except.ok (st, verbatim i.bytes)

/-- Method `Builder::build`: the disassembly loop. `decode addr` models
`Instruction::new` at `addr` (`none` = zero-length instruction, the
`InvalidCode` case). Emits the thunks in order; after an instruction, if the
emitted thunk's length differs from the instruction's and the instruction lies
inside an intra-prolog branch, fails with `UnsupportedInstruction`; once at
least `margin` bytes are consumed, appends a jump to the next original
instruction and finishes. Returns the thunk list and the prolog size; the
outer `none` is loop fuel exhaustion. -/
def build_loop (decode : Nat → Option Instr) (target margin : Nat) :
    Nat → BuildState → List PThunk → Option (Except Error (List PThunk × Nat))
  | 0, _, _ => none
  | fuel + 1, st, acc =>
    if st.finished then
      some (Except.ok (acc, st.totalBytes))
    else
      let addr := target + st.totalBytes
      match decode addr with
      | none => some (Except.error Error.invalidCode)
      | some i =>
        let st1 := { st with totalBytes := st.totalBytes + i.len }
        match process_instruction target margin st1 addr i with
        | Except.error e => some (Except.error e)
        | Except.ok (st2, thunk) =>
          if is_instruction_in_branch st2 addr && decide (i.len ≠ thunk.size) then
            some (Except.error Error.unsupportedInstruction)
          else
            let acc2 := acc ++ [thunk]
            if st2.totalBytes ≥ margin ∧ st2.finished = false then
              build_loop decode target margin fuel
                { st2 with finished := true } (acc2 ++ [jmp_abs (addr + i.len)])
            else
              build_loop decode target margin fuel st2 acc2

/-- Function `Trampoline::new` (via `Builder::build`): run the loop from the
initial state. -/
def trampoline_new (decode : Nat → Option Instr) (target margin fuel : Nat) :
    Option (Except Error (List PThunk × Nat)) :=
  build_loop decode target margin fuel ⟨none, 0, false⟩ []

/-! ### Detour façade (`src/arch/detour.rs`) and patcher toggling
(`src/arch/x86/patcher.rs`)

The patcher's byte state is the patch area's current contents together with
the saved original (`target_backup`) and redirect (`detour_bounce`) byte
vectors; `Patcher::toggle` copies one of them over the area. The façade's
`Detour::toggle` first consults the `enabled` flag under the global mutex and
returns early when it already matches; otherwise it opens a page-protection
window (whose failure, `protect_ok = false`, aborts with `RegionFailure`
before any byte is written) and delegates to the patcher. -/

/-- Patcher byte state (fields of `Patcher` in `src/arch/x86/patcher.rs`). -/
structure PatcherState where
  patched : Bool
  area : List Nat
  target_backup : List Nat
  detour_bounce : List Nat
  deriving DecidableEq, Repr

/-- Method `Patcher::toggle` (byte-level effect): no-op when the requested
state already holds, otherwise copy the redirect or the original bytes over
the patch area. -/
def patcher_toggle (p : PatcherState) (enable : Bool) : PatcherState :=
  if p.patched = enable then p
  else
    { p with
      area := if enable then p.detour_bounce else p.target_backup
      patched := enable }

/-- Detour façade state (fields `patcher` and `enabled` of `Detour`). -/
structure DetourState where
  enabled : Bool
  patcher : PatcherState
  deriving DecidableEq, Repr

/-- Method `Detour::toggle`: early `Ok` when the `enabled` flag already equals
the request; otherwise the page-protection window is opened (`protect_ok`
models its success) and the patcher toggled. Returns the new state and
`Except`-encoded result. -/
def detour_toggle (protect_ok : Bool) (d : DetourState) (enabled : Bool) :
    DetourState × Except Error Unit :=
  if d.enabled = enabled then
    (d, Except.ok ())
  else if !protect_ok then
    (d, Except.error Error.regionFailure)
  else
    (⟨enabled, patcher_toggle d.patcher enabled⟩, Except.ok ())

/-- Method `Detour::disable` = `toggle(false)`. -/
def detour_disable (protect_ok : Bool) (d : DetourState) :
    DetourState × Except Error Unit :=
  detour_toggle protect_ok d false

/-- The `Drop` impl for `Detour` (`src/arch/detour.rs`): the body is
`debug_assert!(self.disable().is_ok())`. When `debug_assertions` is off (a
release build) the macro expands to nothing, so `disable` is never called;
when on, `disable` runs and its success is asserted. -/
def detour_drop (debug_assertions protect_ok : Bool) (d : DetourState) : DetourState :=
  if debug_assertions then (detour_disable protect_ok d).1 else d

/-! ### Claim-specific auxiliary definitions: the sum-of-lengths view of the
emitter, the claim-side patch-area condition, and concrete inputs used by
counterexamples and witnesses. -/

/-- The bytes the spec assigns to the `i`-th thunk of an emitter placed at
`B`: its `generate` output at `B` plus the summed lengths of thunks `0..i`. -/
def spec_piece (ts : List PThunk) (B i : Nat) : List Nat :=
  ((ts.getD i (verbatim [])).gen (B + emitter_len (ts.take i))).getD []

/-- The hot-patch precondition exactly as worded by claim C6 (spec wording,
for comparison with the source's `get_patch_area`): `prologSize < 5`,
`prologSize ≥ 2`, the two bytes at `target` accept a short jump, the five
bytes before `target` are padding, and they are executable. -/
def claimed_hot_patch_cond (mem : Nat → Nat) (exec : Nat → Bool)
    (target p : Nat) : Prop :=
  p < 5 ∧ 2 ≤ p ∧
  (2 ≤ p ∨ is_code_padding (read_bytes mem (target + p) (2 - p)) = true) ∧
  is_code_padding (read_bytes mem (target - 5) 5) = true ∧
  exec (target - 5) = true

/-- Region oracle for the C1 failing input: one occupied region
`[0x10000, 0x10F00)` at the origin, free memory everywhere above. -/
def c1_query : Nat → QueryResult := fun a =>
  if a < 0x10F00 then QueryResult.occupied 0x10000 0x10F00 else QueryResult.free

/-- Concrete RIP-relative instruction for the C2 witness:
`mov al, [rip+3]` (`8A 05 03 00 00 00`). -/
def c2_instr : Instr :=
  ⟨[0x8A, 0x05, 0x03, 0x00, 0x00, 0x00], some 3, none, false, false, false, false⟩

/-- Concrete enabled detour state for C3: the patch area currently holds the
redirect bytes, which differ from the saved original bytes. -/
def c3_state : DetourState :=
  ⟨true, ⟨true, [0xE9, 0x10, 0x00, 0x00, 0x00], [0x55, 0x48, 0x89, 0xE5, 0xC3],
    [0xE9, 0x10, 0x00, 0x00, 0x00]⟩⟩

/-- Concrete pool list for C4: a single page-sized pool holding exactly one
live slice (the one being released). -/
def c4_pool : Pool := ⟨0x1000, 0x1000, [], 1⟩

/-- Target memory for the C6 counterexample: five `0x90` padding bytes before
`target = 0x100`, one padding byte right after the 1-byte prolog, and
non-padding (`0x55`) beyond, so the direct 5-byte policy fails. -/
def c6_mem : Nat → Nat := fun a =>
  if 0xFB ≤ a ∧ a ≤ 0xFF then 0x90 else if a = 0x101 then 0x90 else 0x55

/-- Concrete loop instruction for the C7 witness: `loop +0x10`
(`E2 10`), branching outside a 5-byte prolog. -/
def c7_instr : Instr := ⟨[0xE2, 0x10], none, some 0x10, false, true, false, false⟩

/-- Decoder for the C7 witness: the target prolog starts with `c7_instr`. -/
def c7_decode : Nat → Option Instr :=
  fun a => if a = 0x1000 then some c7_instr else none

/-- Concrete thunk list for the C8 witness. -/
def c8_thunks : List PThunk := [jmp_rel8 0, verbatim [1, 2, 3]]

/-- Concrete enabled detour state for the C9 witness. -/
def c9_state : DetourState := ⟨true, ⟨true, [0xCC], [0x90], [0xCC]⟩⟩

/-- Region oracle for the C10 witness: free below `0x5000`, one occupied
region above. -/
def c10_query : Nat → QueryResult := fun a =>
  if a < 0x5000 then QueryResult.free else QueryResult.occupied 0x5000 0x6000

/-! ### Helper lemmas -/

theorem foldl_size_shift (a : Nat) (ts : List PThunk) :
    ts.foldl (fun sum t => sum + t.size) a =
      a + ts.foldl (fun sum t => sum + t.size) 0 := by
  induction ts generalizing a with
  | nil => simp
  | cons t ts ih =>
    simp only [List.foldl_cons]
    rw [ih (a + t.size), ih (0 + t.size)]
    omega

theorem emitter_len_cons (t : PThunk) (ts : List PThunk) :
    emitter_len (t :: ts) = t.size + emitter_len ts := by
  unfold emitter_len
  simp only [List.foldl_cons]
  simpa using foldl_size_shift t.size ts

theorem le32_length (v : Nat) : (le32 v).length = 4 := rfl

/-! ### Claim theorems -/

/-- Claim C1 (code bug): the proximity allocator can return a slice whose end
lies beyond `origin + maxDistance`. With `maxDistance = 0x1000`, origin
`0x10000`, an occupied region `[0x10000, 0x10F00)` and free memory above, the
request for `0x200` bytes maps a fresh pool at `0x10F00` and returns the slice
`[0x10F00, 0x11100)`, which overruns `origin + maxDistance = 0x11000`
(the `TODO` in `allocate_pool` acknowledges the pool can be out of range). -/
theorem allocate_escapes_range :
    allocate c1_query 0x1000 (fun _ _ => true) 0x1000 [] 0x10000 0x200 8 =
      some (Except.ok (⟨0x10F00, 0x200⟩, [⟨0x10F00, 0x200, [], 1⟩])) ∧
    0x10000 + 0x1000 < 0x10F00 + 0x200 := by
  exact ⟨rfl, by decide⟩

/-- Claim C3 (code bug): `Drop for Detour` runs `disable` only inside
`debug_assert!`, so in a release build (`debug_assertions = false`) dropping an
enabled detour leaves the redirect bytes in place; the patch area still
differs from the saved original bytes. With `debug_assertions = true` the same
drop does restore the original bytes, isolating the divergence to the build
configuration. -/
theorem drop_skips_disable_in_release :
    detour_drop false true c3_state = c3_state ∧
    c3_state.enabled = true ∧
    c3_state.patcher.area ≠ c3_state.patcher.target_backup ∧
    (detour_drop true true c3_state).patcher.area = c3_state.patcher.target_backup := by
  exact ⟨rfl, rfl, by decide, by decide⟩

/-- Claim C4 (code bug): `ProximityAllocator::release` removes a pool only
when `SlicePool::len() == 1`, i.e. when the pool is one byte long. Releasing
the only live slice of a page-sized pool (`live = 1`, so no live slices remain
afterwards) leaves the pool installed, whereas the claim mandates unmapping
it; the result differs from the empty pool list the claim requires. -/
theorem release_keeps_pool_without_live_slices :
    release [c4_pool] 0x1000 = some [c4_pool] ∧
    c4_pool.live = 1 ∧
    some [c4_pool] ≠ some ([] : List Pool) := by
  exact ⟨by decide, rfl, by decide⟩

/-- Claim C9 (confirmed): `Detour::toggle` is idempotent. When the `enabled`
flag already equals the request, the call returns `Ok` and leaves the state
(including the patcher and patch-area bytes) untouched; and for every state,
toggling twice with the same request equals toggling once, protection window
succeeding or not. -/
theorem toggle_idempotent (protect_ok : Bool) (d : DetourState) (b : Bool) :
    (d.enabled = b → detour_toggle protect_ok d b = (d, Except.ok ())) ∧
    detour_toggle protect_ok (detour_toggle protect_ok d b).1 b =
      detour_toggle protect_ok d b := by
  constructor
  · intro h
    unfold detour_toggle
    rw [if_pos h]
  · by_cases h : d.enabled = b
    · unfold detour_toggle
      rw [if_pos h, if_pos h]
    · cases protect_ok <;> simp [detour_toggle, h]

/-- Witness for C9 at a concrete enabled state. -/
theorem toggle_idempotent_witness :
    detour_toggle true c9_state true = (c9_state, Except.ok ()) :=
  (toggle_idempotent true c9_state true).1 rfl

/-- Claim C5 (counterexample): `hook_template` builds the short jump with
`jmp_rel8 (-5)`, not `jmp_rel8 (-7)` as the claim states. Emitted at the
hot-patch base `0x1FFB` for `target = 0x2000`, the code's redirect ends in
`EB F9` (jumping back 5 bytes from the short jump's start), while the claim's
`jmp_rel8 (-7)` would end in `EB F7`. -/
theorem hot_patch_short_jump_counterexample :
    hook_template 0x3000 7 = [jmp_rel32 0x3000, jmp_rel8 (-5)] ∧
    emit (hook_template 0x3000 7) 0x1FFB =
      some [0xE9, 0x00, 0x10, 0x00, 0x00, 0xEB, 0xF9] ∧
    emit [jmp_rel32 0x3000, jmp_rel8 (-7)] 0x1FFB =
      some [0xE9, 0x00, 0x10, 0x00, 0x00, 0xEB, 0xF7] ∧
    (0xF9 : Nat) ≠ 0xF7 := by
  exact ⟨rfl, rfl, rfl, by decide⟩

/-- Claim C5 (amended): whenever the patch area is longer than 5 bytes (the
hot-patch layout), the redirect byte sequence is the 5-byte `jmp rel32` to the
detour followed by the short jump produced by `jmp_rel8 (-5)`, whose encoding
per the thunk contract is opcode `0xEB` followed by `imm8 = (-5) - 2 = -7`,
i.e. the byte `0xF9`. -/
theorem hot_patch_redirect_bytes (detour base area_len : Nat) (h : 5 < area_len)
    (hr : is_within_range (calculate_displacement base detour 5) = true) :
    emit (hook_template detour area_len) base =
      some (0xE9 :: le32 (((calculate_displacement base detour 5).emod (2 ^ 32)).toNat)
        ++ [0xEB, 0xF9]) := by
  unfold hook_template
  rw [if_pos h]
  simp only [emit, jmp_rel32, jmp_rel8]
  rw [hr]
  simp [le32]
  decide

/-- Witness for C5 (amended) at the counterexample's concrete layout. -/
theorem hot_patch_redirect_bytes_witness :
    emit (hook_template 0x3000 7) 0x1FFB =
      some (0xE9 :: le32 (((calculate_displacement 0x1FFB 0x3000 5).emod (2 ^ 32)).toNat)
        ++ [0xEB, 0xF9]) :=
  hot_patch_redirect_bytes 0x3000 0x1FFB 7 (by decide) (by decide)

/-- Claim C6 (counterexample): `get_patch_area` is not characterised by the
claim's condition. With a 1-byte prolog at `0x100`, padding at `0x101`,
non-padding at `0x102..0x104` and five padding bytes before the target, the
code selects the hot-patch area `(0xFB, 7)` although the claim's condition
(`prologSize ≥ 2`) fails; and with all-padding memory and a 3-byte prolog the
claim's condition holds yet the code selects the direct area `(0x100, 5)`. -/
theorem patch_area_policy_counterexample :
    (get_patch_area c6_mem (fun _ => true) 0x100 1 = Except.ok (0xFB, 7) ∧
      ¬ claimed_hot_patch_cond c6_mem (fun _ => true) 0x100 1) ∧
    (claimed_hot_patch_cond (fun _ => 0x90) (fun _ => true) 0x100 3 ∧
      get_patch_area (fun _ => 0x90) (fun _ => true) 0x100 3 = Except.ok (0x100, 5)) := by
  refine ⟨⟨rfl, ?_⟩, ⟨?_, rfl⟩⟩ <;> unfold claimed_hot_patch_cond <;> decide

/-- Claim C6 (amended): `get_patch_area` selects the hot-patch area
`(target - 5, 7)` exactly when the direct 5-byte policy fails
(`is_patchable` with width 5 is false), the 2-byte short jump fits
(`is_patchable` with width 2), the five bytes before the target are padding,
and they are executable; it fails with `NoPatchArea` exactly when the direct
policy fails and the hot-patch conjunction does not hold. -/
theorem patch_area_policy (mem : Nat → Nat) (exec : Nat → Bool) (target p : Nat) :
    (get_patch_area mem exec target p = Except.ok (target - 5, 7) ↔
      is_patchable mem target p 5 = false ∧ is_patchable mem target p 2 = true ∧
      is_code_padding (read_bytes mem (target - 5) 5) = true ∧
      exec (target - 5) = true) ∧
    (get_patch_area mem exec target p = Except.error Error.noPatchArea ↔
      is_patchable mem target p 5 = false ∧
      ¬(is_patchable mem target p 2 = true ∧
        is_code_padding (read_bytes mem (target - 5) 5) = true ∧
        exec (target - 5) = true)) := by
  cases h5 : is_patchable mem target p 5 with
  | true => simp [get_patch_area, h5]
  | false =>
    cases h2 : is_patchable mem target p 2 with
    | false => simp [get_patch_area, h5, h2]
    | true =>
      cases hp : is_code_padding (read_bytes mem (target - 5) 5) with
      | false => simp [get_patch_area, h5, h2, hp]
      | true =>
        cases he : exec (target - 5) with
        | false => simp [get_patch_area, h5, h2, hp, he]
        | true => simp [get_patch_area, h5, h2, hp, he]

/-- Claim C2 (confirmed): for a RIP-relative instruction, if the displacement
lies in `[-consumed, 0)` (inside the already-consumed prolog) the bytes are
copied verbatim; otherwise the emitted thunk has the instruction's exact
length and every byte string it generates at a placement `newBase` ends in the
four little-endian bytes of `origAddr - newBase + d` truncated to 32 bits
(generation fails only on the source's `is_within_range` assertion). -/
theorem rip_relative_thunk_spec (totalBytes addr : Nat) (i : Instr) (d : Int)
    (h4 : 4 ≤ i.bytes.length) :
    ((-(totalBytes : Int) ≤ d ∧ d < 0) →
      handle_rip_relative_instruction totalBytes addr i d =
        (i.isUncondJump, verbatim i.bytes)) ∧
    (¬(-(totalBytes : Int) ≤ d ∧ d < 0) →
      (handle_rip_relative_instruction totalBytes addr i d).2.size = i.bytes.length ∧
      (∀ newBase : Nat, is_within_range ((addr : Int) - (newBase : Int) + d) = true →
        ((handle_rip_relative_instruction totalBytes addr i d).2.gen newBase).isSome) ∧
      ∀ newBase out,
        (handle_rip_relative_instruction totalBytes addr i d).2.gen newBase = some out →
          out.length = i.bytes.length ∧
          out.drop (i.bytes.length - 4) =
            le32 ((((addr : Int) - (newBase : Int) + d).emod (2 ^ 32)).toNat)) := by
  unfold handle_rip_relative_instruction
  constructor
  · intro h
    rw [if_pos h]
  · intro h
    rw [if_neg h]
    refine ⟨rfl, ?_, ?_⟩
    · intro newBase hw
      simp only [Instr.len]
      rw [hw]
      simp
    · intro newBase out hgen
      simp only [Instr.len] at hgen
      by_cases hw : is_within_range ((addr : Int) - (newBase : Int) + d) = true
      · rw [hw] at hgen
        simp only [if_true] at hgen
        injection hgen with hout
        subst hout
        have htake : (i.bytes.take (i.bytes.length - 4)).length = i.bytes.length - 4 := by
          simp [List.length_take]
        constructor
        · simp only [List.length_append, htake, le32_length]
          omega
        · nth_rewrite 1 [← htake]
          rw [List.drop_left]
      · rw [eq_false_of_ne_true hw] at hgen
        simp at hgen

/-- Witness for C2 at `mov al, [rip+3]` located at `0x1000` with six consumed
bytes, placed at `0x2000`. -/
theorem rip_relative_thunk_spec_witness :
    ([0x8A, 0x05, 0x03, 0xF0, 0xFF, 0xFF] : List Nat).length = c2_instr.bytes.length ∧
    ([0x8A, 0x05, 0x03, 0xF0, 0xFF, 0xFF] : List Nat).drop (c2_instr.bytes.length - 4) =
      le32 ((((0x1000 : Int) - (0x2000 : Int) + 3).emod (2 ^ 32)).toNat) :=
  (((rip_relative_thunk_spec 6 0x1000 c2_instr 3 (by decide)).2 (by decide)).2.2
    0x2000 [0x8A, 0x05, 0x03, 0xF0, 0xFF, 0xFF] (by decide))

/-- Claim C7 (confirmed): while building the trampoline, processing a
loop-class relative branch (`loop`, `loope`, `loopne`, `jecxz`, `jcxz`) whose
absolute destination lies outside `[target, target + margin)` makes the build
loop — and hence trampoline construction — fail with
`UnsupportedInstruction`. -/
theorem loop_escape_unsupported (decode : Nat → Option Instr)
    (target margin fuel : Nat) (st : BuildState) (acc : List PThunk)
    (i : Instr) (d : Int)
    (hfin : st.finished = false)
    (hdec : decode (target + st.totalBytes) = some i)
    (hrip : i.ripDisp = none)
    (hbr : i.branchDisp = some d)
    (hcall : i.isCall = false)
    (hloop : i.isLoop = true)
    (hout : ¬(target ≤ branch_destination (target + st.totalBytes) i.len d ∧
      branch_destination (target + st.totalBytes) i.len d < target + margin)) :
    build_loop decode target margin (fuel + 1) st acc =
      some (Except.error Error.unsupportedInstruction) := by
  have hpi : process_instruction target margin
      { st with totalBytes := st.totalBytes + i.len } (target + st.totalBytes) i =
      Except.error Error.unsupportedInstruction := by
    simp [process_instruction, hrip, hbr, handle_relative_branch, hcall, hloop, hout,
      Except.map]
  rw [build_loop]
  rw [if_neg (by simp [hfin])]
  simp only [hdec, hpi]

/-- Witness for C7: the prolog at `0x1000` starts with `loop +0x10`, whose
destination `0x1012` escapes the 5-byte prolog. -/
theorem loop_escape_unsupported_witness :
    build_loop c7_decode 0x1000 5 4 ⟨none, 0, false⟩ [] =
      some (Except.error Error.unsupportedInstruction) :=
  loop_escape_unsupported c7_decode 0x1000 5 3 ⟨none, 0, false⟩ [] c7_instr 0x10
    rfl (by decide) rfl rfl rfl rfl (by decide)

theorem spec_piece_cons (t : PThunk) (ts : List PThunk) (B : Nat) :
    ((List.range (t :: ts).length).map (spec_piece (t :: ts) B)).flatten =
      ((t.gen B).getD []) ++
        ((List.range ts.length).map (spec_piece ts (B + t.size))).flatten := by
  rw [List.length_cons, List.range_succ_eq_map, List.map_cons, List.flatten_cons,
    List.map_map]
  have h0 : spec_piece (t :: ts) B 0 = (t.gen B).getD [] := by
    simp [spec_piece, emitter_len]
  have h1 : (spec_piece (t :: ts) B ∘ Nat.succ) = spec_piece ts (B + t.size) := by
    funext j
    simp only [Function.comp_apply, spec_piece, List.getD_cons_succ, List.take_succ_cons,
      emitter_len_cons]
    rw [Nat.add_assoc]
  rw [h0, h1]

/-- Claim C8 (confirmed): for an emitter whose thunks all satisfy the
`generate`-returns-`len()`-bytes contract, `emit B` succeeds and returns the
concatenation of the thunks' outputs, where thunk `i` receives
`B + Σ len(thunks 0..i)`; the result's length is the emitter's `len()`, the
sum of all thunk lengths. -/
theorem emit_threads_bases (ts : List PThunk) (B : Nat)
    (hc : ∀ t ∈ ts, SatisfiesContract t) :
    emit ts B = some (((List.range ts.length).map (spec_piece ts B)).flatten) ∧
    (((List.range ts.length).map (spec_piece ts B)).flatten).length = emitter_len ts := by
  induction ts generalizing B with
  | nil => simp [emit, emitter_len]
  | cons t ts ih =>
    obtain ⟨out, hout, hlen⟩ := hc t (List.mem_cons_self t ts) B
    have hts : ∀ u ∈ ts, SatisfiesContract u := fun u hu =>
      hc u (List.mem_cons_of_mem t hu)
    obtain ⟨ih1, ih2⟩ := ih (B + t.size) hts
    rw [spec_piece_cons, hout]
    constructor
    · simp [emit, hout, hlen, ih1]
    · simp only [Option.getD_some, List.length_append, emitter_len_cons, ih2, hlen]

/-- Witness for C8 at a concrete two-thunk emitter. -/
theorem emit_threads_bases_witness :
    emit c8_thunks 0 =
      some (((List.range c8_thunks.length).map (spec_piece c8_thunks 0)).flatten) ∧
    (((List.range c8_thunks.length).map (spec_piece c8_thunks 0)).flatten).length =
      emitter_len c8_thunks :=
  emit_threads_bases c8_thunks 0 (by
    intro t ht
    simp only [c8_thunks, List.mem_cons, List.not_mem_nil, or_false] at ht
    rcases ht with h | h
    · subst h
      intro base
      exact ⟨_, rfl, rfl⟩
    · subst h
      intro base
      exact ⟨_, rfl, rfl⟩)

/-- Claim C10 (confirmed): when the free-region iterator yields a free-address
candidate, in the `Before` direction the cursor is left unchanged (equal to
the candidate), so any later `next` call yields the same candidate and state
again; in the `After` direction the cursor advances by one page past the
candidate. -/
theorem region_iter_before_repeats (query : Nat → QueryResult)
    (page_size fuel : Nat) (it it' : RegionIter) (r : Nat)
    (h : region_iter_next query page_size fuel it =
      some (some (ProbeItem.ok r), it')) :
    (it.before = true →
      it'.current = r ∧
      ∀ f, region_iter_next query page_size (f + 1) it' =
        some (some (ProbeItem.ok r), it')) ∧
    (it.before = false → it'.current = r + page_size) := by
  induction fuel generalizing it with
  | zero => simp [region_iter_next] at h
  | succ f ih =>
    rw [region_iter_next] at h
    by_cases hg : (0 < it.current && contains_ it.range_lo it.range_hi it.current) = true
    · rw [if_pos hg] at h
      cases hq : query it.current with
      | occupied lower upper =>
        rw [hq] at h
        exact ih { it with
          current := if it.before = true then lower - page_size else upper } h
      | free =>
        rw [hq] at h
        injection h with h1
        rw [Prod.mk.injEq] at h1
        obtain ⟨ha, hb⟩ := h1
        have hr : it.current = r := by
          injection ha with ha2
          injection ha2
        constructor
        · intro hbt
          rw [hbt] at hb
          simp only [if_true] at hb
          subst hb
          refine ⟨hr, ?_⟩
          intro f2
          rw [region_iter_next, if_pos hg, hq, hbt]
          rw [hr]
          simp
        · intro hbf
          rw [hbf] at hb
          simp only [Bool.false_eq_true, if_false] at hb
          subst hb
          simp [hr]
      | fail =>
        rw [hq] at h
        injection h with h1
        rw [Prod.mk.injEq] at h1
        exact absurd h1.1 (by simp)
    · rw [if_neg hg] at h
      injection h with h1
      rw [Prod.mk.injEq] at h1
      exact absurd h1.1 (by simp)

/-- Witness for C10: after yielding the candidate `0x4000` downward from
`0x7000`, the iterator state is unchanged and yields `0x4000` again. -/
theorem region_iter_before_repeats_witness :
    region_iter_next c10_query 0x1000 3 ⟨0x1000, 0x9000, true, 0x4000⟩ =
      some (some (ProbeItem.ok 0x4000), ⟨0x1000, 0x9000, true, 0x4000⟩) :=
  (((region_iter_before_repeats c10_query 0x1000 5
    ⟨0x1000, 0x9000, true, 0x7000⟩ ⟨0x1000, 0x9000, true, 0x4000⟩ 0x4000
    (by decide)).1 rfl).2) 2

end DetourRs
